import Mathlib

/-!
Verification of the aggregation and filtering layer of the e-commerce churn
dashboard (app.py).  The dataframe is embedded as a list of typed rows over ℚ;
each definition mirrors one pandas expression of the source, with the source
line noted.  Means of possibly-empty columns return an Option, where none
models the NaN that pandas produces for the mean of an empty series.
-/

/-- One row of the dashboard table (one CustomerRecord).  Numeric columns are
embedded as rationals; actual_churn is the 0/1 churn flag column. -/
structure Row where
  customer_id : String
  segment : String
  clv_proxy : ℚ
  churn_probability : ℚ
  risk_level : String
  actual_churn : ℚ
deriving DecidableEq

/-- The in-memory dataframe: a finite sequence of rows. -/
abbrev Table := List Row

/-- Mean of a numeric column, as pandas Series.mean computes it: sum divided by
length, and NaN (here: none) when the series is empty. -/
def smean (l : List ℚ) : Option ℚ :=
  if l.isEmpty then none else some (l.sum / l.length)

/-- app.py line 50: total_customers = data["customer_id"].nunique(), the number
of distinct customer_id values. -/
def total_customers (data : Table) : ℕ :=
  ((data.map Row.customer_id).dedup).length

/-- app.py line 51: churn_rate = data["actual_churn"].mean() * 100. -/
def churn_rate (data : Table) : Option ℚ :=
  (smean (data.map Row.actual_churn)).map (· * 100)

/-- app.py line 52: high_risk_pct = (data["risk_level"] == "High Risk").mean() * 100;
the comparison yields a boolean column whose mean is the matching proportion. -/
def high_risk_pct (data : Table) : Option ℚ :=
  (smean (data.map (fun r => if r.risk_level == "High Risk" then (1 : ℚ) else 0))).map (· * 100)

/-- app.py line 53: avg_clv = data["clv_proxy"].mean(). -/
def avg_clv (data : Table) : Option ℚ :=
  smean (data.map Row.clv_proxy)

/-- app.py line 67: risk_counts = data["risk_level"].value_counts(), read as the
function sending a label to the number of rows carrying it. -/
def risk_counts (data : Table) (label : String) : ℕ :=
  data.countP (fun r => r.risk_level == label)

/-- Spec formula (section 4.2): churn rate as a percentage, the mean of
actual_churn over the whole table times 100. -/
def spec_churn_rate (data : Table) : ℚ :=
  ((data.map Row.actual_churn).sum / data.length) * 100

/-- Spec formula (section 4.2): proportion of rows whose risk_level is
High Risk, as a percentage. -/
def spec_high_risk_pct (data : Table) : ℚ :=
  ((data.countP (fun r => r.risk_level == "High Risk") : ℚ) / data.length) * 100

/-- Spec formula (section 4.2): mean of clv_proxy over the whole table. -/
def spec_avg_clv (data : Table) : ℚ :=
  (data.map Row.clv_proxy).sum / data.length

/-- Row A of the concrete 4-row scenario from the spec (section 8). -/
def rowA : Row := ⟨"A", "S1", 100, 9/10, "High Risk", 1⟩

/-- Row B of the concrete 4-row scenario. -/
def rowB : Row := ⟨"B", "S1", 50, 2/10, "Low Risk", 0⟩

/-- Row C of the concrete 4-row scenario. -/
def rowC : Row := ⟨"C", "S2", 200, 8/10, "High Risk", 1⟩

/-- Row D of the concrete 4-row scenario. -/
def rowD : Row := ⟨"D", "S2", 30, 1/10, "Low Risk", 0⟩

/-- The concrete 4-row table of the spec scenario. -/
def sample4 : Table := [rowA, rowB, rowC, rowD]

/-- app.py lines 124-128: filtered_data starts as a copy of the table and, for
any selector other than the sentinel All, keeps exactly the rows whose
risk_level equals the selector string. -/
def filtered_data (data : Table) (risk_choice : String) : Table :=
  if risk_choice ≠ "All" then data.filter (fun r => r.risk_level == risk_choice) else data

/-- Row order by ascending churn probability, the key used by sort_values. -/
def probLe (a b : Row) : Prop :=
  a.churn_probability ≤ b.churn_probability

instance : DecidableRel probLe :=
  fun a b => inferInstanceAs (Decidable (a.churn_probability ≤ b.churn_probability))

instance : IsTotal Row probLe :=
  ⟨fun a b => le_total a.churn_probability b.churn_probability⟩

instance : IsTrans Row probLe :=
  ⟨fun _ _ _ => le_trans⟩

/-- Models sort_values("churn_probability", ascending=False) as pandas executes
it (pandas nargsort, since the GH 6399 fix): for a descending sort the rows are
first reversed, then argsorted ascending by the key, and the resulting index
order is reversed again.  With a stable underlying argsort - numpy's default
quicksort degenerates to its stable insertion sort below 16 elements, and the
mergesort/stable kinds are stable at every size - the two reversals cancel on
ties, so rows with equal keys keep their original relative order. -/
def sort_values_desc (t : Table) : Table :=
  ((t.reverse).insertionSort probLe).reverse

/-- app.py lines 130-136: the churn-risk table rendered in tab 3, the filtered
rows sorted by churn_probability descending.  The column projection applied
before sorting is presentational and does not affect row identity or order. -/
def risk_table_view (data : Table) (risk_choice : String) : Table :=
  sort_values_desc (filtered_data data risk_choice)

/-- Median of a numeric column as pandas Series.median computes it: NaN (none)
for an empty series; otherwise sort ascending and take the middle element for
odd length, or the average of the two middle elements for even length. -/
def seriesMedian (l : List ℚ) : Option ℚ :=
  if l.isEmpty then none
  else
    let s := l.insertionSort (· ≤ ·)
    if l.length % 2 = 1 then some (s.getD (l.length / 2) 0)
    else some ((s.getD (l.length / 2 - 1) 0 + s.getD (l.length / 2) 0) / 2)

/-- app.py lines 155-158: priority_customers keeps the rows that are High Risk
and whose clv_proxy is strictly above the median of clv_proxy over the full
table.  On an empty table the median is NaN and every NaN comparison is false,
so the result is empty. -/
def priority_customers (data : Table) : Table :=
  match seriesMedian (data.map Row.clv_proxy) with
  | none => []
  | some m => data.filter (fun r => r.risk_level == "High Risk" && decide (m < r.clv_proxy))

/-- One output row of the segment summary. -/
structure SegRow where
  segment : String
  customers : ℕ
  seg_avg_clv : ℚ
  seg_churn_rate : ℚ
deriving DecidableEq

/-- app.py lines 94-98: groupby("segment") with count of customer_id and means
of clv_proxy and actual_churn per group.  Group keys are the distinct segment
values, listed in ascending order as pandas groupby produces with its default
sort=True; each group is never empty, so its mean is a plain quotient. -/
def segment_summary (data : Table) : List SegRow :=
  (((data.map Row.segment).dedup).insertionSort (· ≤ ·)).map (fun s =>
    let g := data.filter (fun r => r.segment == s)
    { segment := s
      customers := g.length
      seg_avg_clv := (g.map Row.clv_proxy).sum / g.length
      seg_churn_rate := (g.map Row.actual_churn).sum / g.length })

/-- A raw delimited file: a header row of column names and data rows of cell
strings. -/
structure CsvFile where
  header : List String
  rows : List (List String)
deriving DecidableEq

/-- Failures of the backing-file read. -/
inductive LoadError where
  | fileNotFound : LoadError
  | tokenizeError : LoadError
deriving DecidableEq

/-- pandas.read_csv on an optional backing file: raises FileNotFoundError when
the file is absent, raises a tokenizing ParserError when some data row carries
more fields than the header, and otherwise returns the frame as read - with no
validation of which columns are present. -/
def read_csv (src : Option CsvFile) : Except LoadError CsvFile :=
  match src with
  | none => Except.error LoadError.fileNotFound
  | some f =>
    if f.rows.all (fun row => row.length ≤ f.header.length) then Except.ok f
    else Except.error LoadError.tokenizeError

/-- app.py lines 22-24: load_data() is read_csv on the fixed backing path; the
cache decorator only memoizes and adds no validation. -/
def load_data (src : Option CsvFile) : Except LoadError CsvFile :=
  read_csv src

/-- Column access data[c] on a loaded frame: none models the KeyError raised
when the column is absent; short rows read as missing cells (NaN), here the
empty string. -/
def getColumn (f : CsvFile) (c : String) : Option (List String) :=
  match f.header.indexOf? c with
  | none => none
  | some i => some (f.rows.map (fun row => row.getD i ""))

/-- The required columns of the CustomerRecord schema (spec section 3). -/
def requiredColumns : List String :=
  ["customer_id", "segment", "clv_proxy", "churn_probability", "risk_level", "actual_churn"]

/-- A backing file whose header lacks four of the required columns; read_csv
accepts it unchanged. -/
def degradedCsv : CsvFile :=
  ⟨["customer_id", "segment"], [["A", "S1"], ["B", "S2"]]⟩

/-- Rows sharing the customer_id of rowA, for exercising the distinct count. -/
def rowA2 : Row := ⟨"A", "S2", 60, 1, "Low Risk", 1⟩

/-- A table in which two rows share one customer_id. -/
def dup_table : Table := [rowA, rowA2]

/-- High-risk row above the median of the median witness table. -/
def rowP1 : Row := ⟨"P1", "S1", 30, 1, "High Risk", 1⟩

/-- Low-risk row of the median witness table. -/
def rowP2 : Row := ⟨"P2", "S1", 10, 0, "Low Risk", 0⟩

/-- High-risk row at the median of the median witness table. -/
def rowP3 : Row := ⟨"P3", "S2", 20, 1, "High Risk", 0⟩

/-- A three-row table whose clv_proxy median is the integer 20. -/
def med_table : Table := [rowP1, rowP2, rowP3]

/-- Sum of the 0/1 indicator column for the High Risk test equals the number of
rows passing the test; this connects a boolean-column mean to a row proportion. -/
theorem sum_indicator_high_risk (t : Table) :
    (t.map (fun r => if r.risk_level = "High Risk" then (1 : ℚ) else 0)).sum
      = (t.countP (fun r => r.risk_level == "High Risk") : ℚ) := by
  induction t with
  | nil => simp
  | cons r tl ih =>
    by_cases hx : r.risk_level = "High Risk" <;>
      simp [List.countP_cons, hx, ih, add_comm]

/-- The three Option-valued aggregates agree with the spec formulas on any
non-empty table. -/
theorem headline_eq_spec (t : Table) (h : t ≠ []) :
    churn_rate t = some (spec_churn_rate t)
    ∧ high_risk_pct t = some (spec_high_risk_pct t)
    ∧ avg_clv t = some (spec_avg_clv t) := by
  refine ⟨?_, ?_, ?_⟩
  · simp [churn_rate, smean, spec_churn_rate, List.isEmpty_iff, h]
  · simp [high_risk_pct, smean, spec_high_risk_pct, List.isEmpty_iff, h,
      sum_indicator_high_risk t]
  · simp [avg_clv, smean, spec_avg_clv, List.isEmpty_iff, h]

/-- Claim C2: on a non-empty table the four headline aggregates are the distinct
customer count, the mean of actual_churn times 100, the High Risk row proportion
times 100, and the mean of clv_proxy; on the concrete 4-row scenario table they
evaluate to 4, 50, 50 and 95. -/
theorem headline_aggregates_spec (t : Table) (h : t ≠ []) :
    (churn_rate t = some (spec_churn_rate t)
      ∧ high_risk_pct t = some (spec_high_risk_pct t)
      ∧ avg_clv t = some (spec_avg_clv t)
      ∧ total_customers t = ((t.map Row.customer_id).dedup).length)
    ∧ (total_customers sample4 = 4
      ∧ churn_rate sample4 = some 50
      ∧ high_risk_pct sample4 = some 50
      ∧ avg_clv sample4 = some 95) := by
  refine ⟨⟨(headline_eq_spec t h).1, (headline_eq_spec t h).2.1,
    (headline_eq_spec t h).2.2, rfl⟩, by decide, ?_, ?_, ?_⟩ <;>
    norm_num [churn_rate, high_risk_pct, avg_clv, smean, sample4,
      rowA, rowB, rowC, rowD, show "Low Risk" ≠ "High Risk" by decide]

/-- Witness for C2 at the concrete scenario table. -/
theorem headline_aggregates_spec_witness :
    (churn_rate sample4 = some (spec_churn_rate sample4)
      ∧ high_risk_pct sample4 = some (spec_high_risk_pct sample4)
      ∧ avg_clv sample4 = some (spec_avg_clv sample4)
      ∧ total_customers sample4 = ((sample4.map Row.customer_id).dedup).length)
    ∧ (total_customers sample4 = 4
      ∧ churn_rate sample4 = some 50
      ∧ high_risk_pct sample4 = some 50
      ∧ avg_clv sample4 = some 95) :=
  headline_aggregates_spec sample4 (by decide)

/-- Counterexample to claim C3: on the empty table the headline aggregation
does not signal an empty-dataset error; the three ratio and mean aggregates
evaluate to NaN (none, the empty-series mean) and this NaN is what the code
hands to the display layer. -/
theorem empty_table_nan_cex :
    churn_rate ([] : Table) = none
    ∧ high_risk_pct ([] : Table) = none
    ∧ avg_clv ([] : Table) = none := by
  decide

/-- Claim C3 as amended: on the empty table churn rate, high-risk percentage
and average CLV all evaluate to the NaN marker rather than numbers, the
distinct-customer count is 0, and the derived views are empty; no EmptyDataset
signal exists anywhere in the computation. -/
theorem empty_table_amended (t : Table) (h : t = []) :
    churn_rate t = none
    ∧ high_risk_pct t = none
    ∧ avg_clv t = none
    ∧ total_customers t = 0
    ∧ segment_summary t = []
    ∧ priority_customers t = [] := by
  subst h
  decide

/-- Witness for the amended C3 at the concrete empty table. -/
theorem empty_table_amended_witness :
    churn_rate ([] : Table) = none
    ∧ high_risk_pct ([] : Table) = none
    ∧ avg_clv ([] : Table) = none
    ∧ total_customers ([] : Table) = 0
    ∧ segment_summary ([] : Table) = []
    ∧ priority_customers ([] : Table) = [] :=
  empty_table_amended [] rfl

/-- Claim C10: total_customers is the distinct customer_id count, so it drops
strictly below the row count as soon as some customer_id occurs in two rows,
while the churn rate, high-risk percentage and average CLV stay means over all
rows of the table. -/
theorem total_customers_distinct_ids (t : Table) (c : String)
    (hdup : 2 ≤ (t.map Row.customer_id).count c) :
    total_customers t = ((t.map Row.customer_id).dedup).length
    ∧ total_customers t < t.length
    ∧ churn_rate t = some (spec_churn_rate t)
    ∧ high_risk_pct t = some (spec_high_risk_pct t)
    ∧ avg_clv t = some (spec_avg_clv t) := by
  have hne : t ≠ [] := by
    rintro rfl
    simp at hdup
  have hnotnodup : ¬ (t.map Row.customer_id).Nodup := by
    intro hn
    have hc := List.nodup_iff_count_le_one.mp hn c
    omega
  have hsub := List.dedup_sublist (t.map Row.customer_id)
  have hlt : ((t.map Row.customer_id).dedup).length < (t.map Row.customer_id).length := by
    rcases lt_or_eq_of_le hsub.length_le with hl | hl
    · exact hl
    · exact absurd ((hsub.eq_of_length hl) ▸ List.nodup_dedup (t.map Row.customer_id))
        hnotnodup
  refine ⟨rfl, ?_, (headline_eq_spec t hne).1, (headline_eq_spec t hne).2.1,
    (headline_eq_spec t hne).2.2⟩
  simpa [total_customers] using hlt

/-- Witness for C10 on a table whose two rows share customer_id A. -/
theorem total_customers_distinct_ids_witness :
    total_customers dup_table = ((dup_table.map Row.customer_id).dedup).length
    ∧ total_customers dup_table < dup_table.length
    ∧ churn_rate dup_table = some (spec_churn_rate dup_table)
    ∧ high_risk_pct dup_table = some (spec_high_risk_pct dup_table)
    ∧ avg_clv dup_table = some (spec_avg_clv dup_table) :=
  total_customers_distinct_ids dup_table "A" (by decide)

/-- Claim C4: for each of the three concrete risk labels, the risk filter keeps
exactly the rows carrying that label (case-sensitive string equality), and the
number of kept rows is the count the risk distribution records for the label. -/
theorem risk_filter_label_spec (t : Table) (L : String) (r : Row)
    (hL : L ∈ (["High Risk", "Medium Risk", "Low Risk"] : List String)) :
    (r ∈ filtered_data t L ↔ (r ∈ t ∧ r.risk_level = L))
    ∧ (filtered_data t L).length = risk_counts t L := by
  have hAll : L ≠ "All" := by
    fin_cases hL <;> decide
  constructor
  · simp [filtered_data, hAll, List.mem_filter]
  · simp [filtered_data, hAll, risk_counts, List.countP_eq_length_filter]

/-- Witness for C4 at the scenario table with the High Risk label. -/
theorem risk_filter_label_spec_witness :
    (rowA ∈ filtered_data sample4 "High Risk"
      ↔ (rowA ∈ sample4 ∧ rowA.risk_level = "High Risk"))
    ∧ (filtered_data sample4 "High Risk").length = risk_counts sample4 "High Risk" :=
  risk_filter_label_spec sample4 "High Risk" rowA (by decide)

/-- Claim C5: the risk filter applied with the sentinel All is the identity on
the table, and the subsequently displayed sorted view is a permutation of it,
so row count and row multiset are unchanged. -/
theorem risk_filter_all_identity (t : Table) :
    filtered_data t "All" = t
    ∧ (risk_table_view t "All").Perm t
    ∧ (risk_table_view t "All").length = t.length := by
  have hid : filtered_data t "All" = t := by simp [filtered_data]
  have hperm : (risk_table_view t "All").Perm t := by
    rw [risk_table_view, hid, sort_values_desc]
    exact ((t.reverse.insertionSort probLe).reverse_perm).trans
      ((t.reverse.perm_insertionSort probLe).trans t.reverse_perm)
  exact ⟨hid, hperm, hperm.length_eq⟩

/-- Counterexample to claim C7: a selector value outside the four allowed
labels is not treated as All; on the scenario table the out-of-range label
Bogus yields the empty table, not the full one. -/
theorem invalid_label_cex :
    filtered_data sample4 "Bogus" = [] ∧ ([] : Table) ≠ sample4 := by
  decide

/-- Claim C7 as amended: every selector other than the sentinel All - whether
or not it is an allowed label - is used as an exact equality filter, so a value
matching no row returns the empty table rather than the full table; no
exception is raised. -/
theorem invalid_label_amended (t : Table) (sel : String) (hsel : sel ≠ "All")
    (hnone : ∀ r ∈ t, r.risk_level ≠ sel) :
    filtered_data t sel = t.filter (fun r => r.risk_level == sel)
    ∧ filtered_data t sel = [] := by
  refine ⟨by simp [filtered_data, hsel], ?_⟩
  simp only [filtered_data, hsel, ne_eq, not_false_iff, if_true]
  rw [List.filter_eq_nil_iff]
  intro r hr
  simpa using hnone r hr

/-- Witness for the amended C7 at the scenario table with label Bogus. -/
theorem invalid_label_amended_witness :
    filtered_data sample4 "Bogus" = sample4.filter (fun r => r.risk_level == "Bogus")
    ∧ filtered_data sample4 "Bogus" = [] :=
  invalid_label_amended sample4 "Bogus" (by decide) (by decide)

/-- Claim C1: a row is in the priority subset exactly when it is a High Risk
row of the table whose clv_proxy lies strictly above the median of clv_proxy
taken over the entire table before any filtering. -/
theorem priority_subset_spec (t : Table) (m : ℚ)
    (hm : seriesMedian (t.map Row.clv_proxy) = some m) (r : Row) :
    r ∈ priority_customers t ↔ (r ∈ t ∧ r.risk_level = "High Risk" ∧ m < r.clv_proxy) := by
  unfold priority_customers
  rw [hm]
  simp [List.mem_filter, and_assoc]

/-- Witness for C1 at a table of integer values with median 20. -/
theorem priority_subset_spec_witness :
    rowP1 ∈ priority_customers med_table
      ↔ (rowP1 ∈ med_table ∧ rowP1.risk_level = "High Risk" ∧ (20 : ℚ) < rowP1.clv_proxy) :=
  priority_subset_spec med_table 20 (by decide) rowP1

/-- The length of a segment group equals the multiplicity of its key in the
segment column. -/
theorem filter_segment_length_eq_count (t : Table) (s : String) :
    (t.filter (fun r => r.segment == s)).length = (t.map Row.segment).count s := by
  induction t with
  | nil => simp
  | cons r tl ih =>
    by_cases h : r.segment = s <;>
      simp [List.filter_cons, List.count_cons, h, ih]

/-- The keys of the segment summary are the sorted deduplicated segments. -/
theorem segment_summary_keys (t : Table) :
    (segment_summary t).map SegRow.segment
      = ((t.map Row.segment).dedup).insertionSort (· ≤ ·) := by
  simp [segment_summary, List.map_map, Function.comp_def]

/-- Claim C9: the segment summary has exactly one output row per distinct
segment value of the table - no segment omitted, none duplicated - carrying the
group size and the group means of clv_proxy and actual_churn, and the group
sizes over all emitted rows add up to the row count of the table. -/
theorem segment_summary_spec (t : Table) :
    ((segment_summary t).map SegRow.segment).Nodup
    ∧ (∀ s, s ∈ (segment_summary t).map SegRow.segment ↔ s ∈ t.map Row.segment)
    ∧ (∀ g ∈ segment_summary t,
        g.customers = (t.filter (fun r => r.segment == g.segment)).length
        ∧ g.seg_avg_clv
            = ((t.filter (fun r => r.segment == g.segment)).map Row.clv_proxy).sum
              / (t.filter (fun r => r.segment == g.segment)).length
        ∧ g.seg_churn_rate
            = ((t.filter (fun r => r.segment == g.segment)).map Row.actual_churn).sum
              / (t.filter (fun r => r.segment == g.segment)).length)
    ∧ ((segment_summary t).map SegRow.customers).sum = t.length := by
  have hkp : (((t.map Row.segment).dedup).insertionSort (· ≤ ·)).Perm
      ((t.map Row.segment).dedup) := List.perm_insertionSort _ _
  refine ⟨?_, ?_, ?_, ?_⟩
  · rw [segment_summary_keys]
    exact hkp.nodup_iff.mpr (List.nodup_dedup _)
  · intro s
    rw [segment_summary_keys, hkp.mem_iff, List.mem_dedup]
  · intro g hg
    simp only [segment_summary, List.mem_map] at hg
    obtain ⟨s, _, rfl⟩ := hg
    exact ⟨rfl, rfl, rfl⟩
  · have hmap : (segment_summary t).map SegRow.customers
        = (((t.map Row.segment).dedup).insertionSort (· ≤ ·)).map
            (fun s => (t.filter (fun r => r.segment == s)).length) := by
      simp [segment_summary, List.map_map, Function.comp_def]
    rw [hmap, (hkp.map (fun s => (t.filter (fun r => r.segment == s)).length)).sum_eq]
    calc (((t.map Row.segment).dedup).map
            (fun s => (t.filter (fun r => r.segment == s)).length)).sum
        = (((t.map Row.segment).dedup).map
            (fun s => (t.map Row.segment).count s)).sum := by
          simp [filter_segment_length_eq_count]
      _ = (t.map Row.segment).length := List.sum_map_count_dedup_eq_length _
      _ = t.length := by simp

/-- Counterexample to claim C8: the loader performs no schema validation; a
backing file missing the required churn_probability column is returned intact
rather than rejected. -/
theorem load_no_schema_check_cex :
    load_data (some degradedCsv) = Except.ok degradedCsv
    ∧ "churn_probability" ∈ requiredColumns
    ∧ "churn_probability" ∉ degradedCsv.header :=
  ⟨rfl, by decide, by decide⟩

/-- Claim C8 as amended: load fails only when the backing source itself is
missing (or unparsable); a well-shaped file missing a required column loads
successfully, and the absence only surfaces later, when a consumer accesses
the missing column. -/
theorem load_data_amended (src : Option CsvFile) (f : CsvFile) (c : String)
    (hsome : src = some f)
    (hshape : ∀ row ∈ f.rows, row.length ≤ f.header.length)
    (hc : c ∉ f.header) :
    load_data none = Except.error LoadError.fileNotFound
    ∧ load_data src = Except.ok f
    ∧ getColumn f c = none := by
  refine ⟨rfl, ?_, ?_⟩
  · have hall : f.rows.all (fun row => row.length ≤ f.header.length) = true := by
      rw [List.all_eq_true]
      intro row hrow
      simpa using hshape row hrow
    simp [load_data, read_csv, hsome, hall]
  · have hidx : f.header.indexOf? c = none := by
      rw [List.indexOf?_eq_none_iff]
      simp only [beq_iff_eq]
      intro x hx hxc
      exact hc (hxc ▸ hx)
    simp [getColumn, hidx]

/-- Witness for the amended C8 at the degraded two-column file. -/
theorem load_data_amended_witness :
    load_data none = Except.error LoadError.fileNotFound
    ∧ load_data (some degradedCsv) = Except.ok degradedCsv
    ∧ getColumn degradedCsv "churn_probability" = none :=
  load_data_amended (some degradedCsv) degradedCsv "churn_probability" rfl
    (by decide) (by decide)
